import Mathlib

/-!
Shallow embedding of the object-lifecycle / resource-budget core of the
physics-simulation app, together with proofs about it.

Embedded source files:
* `src/utils/performanceOptimization.ts` — `PERFORMANCE_LIMITS`,
  `PerformanceOptimizer.canAddObject`, `suggestObjectsForRemoval`,
  `performCleanup`, `getCacheStats`, and the GLB collision utilities
  (`extractVerticesFromGLB`, `calculateGLBDimensions`, `simplifyVertices`,
  `validateCollisionShape`, `createCollisionShapeFromGLB`).
* `src/hooks/useSimulation.ts` — `addObject`, `removeObject`,
  `removeAllObjects` (the performance-aware version of the hook).
* `src/types/simulation.ts` — `ObjectType`, `SpawnedObject`.

Modelling conventions:
* JS numbers are modelled by `ℚ` (exact arithmetic on the finite values the
  code actually computes with); where a function explicitly tests
  `isFinite` on caller-supplied data, a dedicated `JsNum` type with
  infinities and NaN is used.
* `Date.now()`, `Math.random()` and generated ids are nondeterministic
  inputs of the code; they appear as explicit parameters of the embedded
  operations.
* React's `useState` state (`objects`, `isRunning`, `resetKey`,
  `performanceWarnings`) is gathered into an explicit `SimState` record and
  every `setX(...)` call becomes a functional update.  Functional updaters
  `setX(prev => ...)` receive the current value, exactly as React passes it.
* JS `Array.prototype.sort` with comparator `(a, b) => a.timestamp -
  b.timestamp` is a stable ascending sort of the array *in place*
  (ECMAScript 2019 requires stability); it is modelled by Mathlib's stable
  `List.insertionSort`, and functions that call `.sort` on an argument
  return the post-call contents of that argument alongside their result.
-/

/-- `ObjectType` enum from `src/types/simulation.ts`
(`BALL = 'ball'`, `BOX = 'box'`, `GLB_MODEL = 'glb'`). -/
inductive ObjectType where
  | ball
  | box
  | glb
deriving DecidableEq, Repr

/-- The string value of an `ObjectType` enum member. -/
def ObjectType.toStr : ObjectType → String
  | .ball => "ball"
  | .box => "box"
  | .glb => "glb"

/-- `collisionType` values for GLB models (`'box' | 'convex'`). -/
inductive CollisionType where
  | box
  | convex
deriving DecidableEq, Repr

/-- The optional `props` bag of a `SpawnedObject`
(`src/types/simulation.ts`).  Absent fields are `none`. -/
structure SpawnProps where
  radius : Option ℚ := none
  size : Option (ℚ × ℚ × ℚ) := none
  mass : Option ℚ := none
  color : Option String := none
  url : Option String := none
  scale : Option (ℚ × ℚ × ℚ) := none
  collisionType : Option CollisionType := none
deriving DecidableEq, Repr

/-- JS object spread `{ ...base, ...over }`: a field of `over`, when
present, overrides the same field of `base`. -/
def spreadProps (base over : SpawnProps) : SpawnProps where
  radius := match over.radius with | some v => some v | none => base.radius
  size := match over.size with | some v => some v | none => base.size
  mass := match over.mass with | some v => some v | none => base.mass
  color := match over.color with | some v => some v | none => base.color
  url := match over.url with | some v => some v | none => base.url
  scale := match over.scale with | some v => some v | none => base.scale
  collisionType :=
    match over.collisionType with | some v => some v | none => base.collisionType

/-- `SpawnedObject` from `src/types/simulation.ts`. -/
structure SpawnedObject where
  id : String
  type : ObjectType
  position : ℚ × ℚ × ℚ
  timestamp : ℕ
  props : SpawnProps := {}
deriving DecidableEq, Repr

/-! `PERFORMANCE_LIMITS` from `src/utils/performanceOptimization.ts`. -/

def MAX_OBJECTS : ℕ := 50

def MAX_BALLS : ℕ := 25

def MAX_BOXES : ℕ := 25

def MAX_GLB_MODELS : ℕ := 10

def CLEANUP_THRESHOLD : ℕ := 45

/-- The per-category ceiling selected by the `switch` in `canAddObject` and
by the `typeLimit` conditional chain in `addObject`. -/
def typeLimitOf : ObjectType → ℕ
  | .ball => MAX_BALLS
  | .box => MAX_BOXES
  | .glb => MAX_GLB_MODELS

/-- Number of entities of category `t` in `objs` (the
`objects.filter(obj => obj.type.toLowerCase() === normalizedType).length`
count; the enum values are already lowercase, so `toLowerCase` is the
identity on them). -/
def countType (objs : List SpawnedObject) (t : ObjectType) : ℕ :=
  (objs.filter fun o => decide (o.type = t)).length

/-- `PerformanceOptimizer.canAddObject`
(`src/utils/performanceOptimization.ts:104-125`).  The `type` argument is
always one of the three `ObjectType` enum values at every call site, so the
`'glb_model'` alias and the `default: return false` arm of the `switch` are
unreachable and have no counterpart here. -/
def canAddObject (objects : List SpawnedObject) (type : ObjectType) : Bool :=
  if MAX_OBJECTS ≤ objects.length then
    false
  else
    let typeCount := countType objects type
    match type with
    | .ball => decide (typeCount < MAX_BALLS)
    | .box => decide (typeCount < MAX_BOXES)
    | .glb => decide (typeCount < MAX_GLB_MODELS)

/-- Comparator passed to `.sort` in `suggestObjectsForRemoval`:
`(a, b) => a.timestamp - b.timestamp`, i.e. ascending timestamps. -/
def tsLE (a b : SpawnedObject) : Prop := a.timestamp ≤ b.timestamp

instance : DecidableRel tsLE :=
  fun a b => inferInstanceAs (Decidable (a.timestamp ≤ b.timestamp))

/-- `PerformanceOptimizer.suggestObjectsForRemoval`
(`src/utils/performanceOptimization.ts:188-193`).

`objects.sort(...)` sorts the *input array in place* (stable, ascending by
`timestamp`), then `.slice(0, count).map(obj => obj.id)` is returned.  The
result is the pair `(returned ids, contents of the input array after the
call)`; the second component records the in-place mutation.  The JS `count`
parameter defaults to 5; here it is always explicit (the `addObject`
auto-cleanup call site passes 3). -/
def suggestObjectsForRemoval (objects : List SpawnedObject) (count : ℕ) :
    List String × List SpawnedObject :=
  let sorted := objects.insertionSort tsLE
  (((sorted.take count).map fun o => o.id), sorted)

/-- JS `String.prototype.includes`: `strIncludes s sub` is true when `sub`
occurs as a substring of `s`. -/
def strIncludes (s sub : String) : Bool :=
  decide (sub.data <:+: s.data)

/-! Optimizer-owned resource caches (`MaterialCache`, `GeometryCache`) and
cleanup callbacks, as far as the reset path exercises them. -/

/-- Cache-side state of the `PerformanceOptimizer` singleton: the material
and geometry caches (key-to-handle maps, handles abstracted to `ℕ`) and the
registered cleanup callbacks.  A cleanup callback is a `() => void` closure
over state *outside* the optimizer; in the application code
`registerCleanupCallback` is never invoked (only tests call it), so the
callback set is abstracted to its size. -/
structure OptimizerState where
  materials : List (String × ℕ) := []
  geometries : List (String × ℕ) := []
  cleanupCallbacks : ℕ := 0
deriving DecidableEq, Repr

/-- `PerformanceOptimizer.performCleanup`
(`src/utils/performanceOptimization.ts:177-185`): invokes every registered
cleanup callback (each a `() => void` closure over external state, any
exception swallowed with a console warning).  It does not touch
`materialCache`, `geometryCache`, or the callback set itself, so the
optimizer state is returned unchanged. -/
def performCleanup (opt : OptimizerState) : OptimizerState := opt

/-- Result shape of `PerformanceOptimizer.getCacheStats`. -/
structure CacheStats where
  materials : ℕ
  geometries : ℕ
  cleanupCallbacks : ℕ
deriving DecidableEq, Repr

/-- `PerformanceOptimizer.getCacheStats`
(`src/utils/performanceOptimization.ts:203-209`). -/
def getCacheStats (opt : OptimizerState) : CacheStats where
  materials := opt.materials.length
  geometries := opt.geometries.length
  cleanupCallbacks := opt.cleanupCallbacks

/-! The simulation hook state (`src/hooks/useSimulation.ts`, the
performance-aware version at lines 206-445 of the concatenated file). -/

/-- The `useState` pieces of `useSimulation`. -/
structure SimState where
  objects : List SpawnedObject := []
  isRunning : Bool := true
  resetKey : ℕ := 0
  performanceWarnings : List String := []
deriving DecidableEq, Repr

def limitReachedTag : String := "limit reached"

def autoCleanupTag : String := "Auto-cleanup"

def autoCleanupMsg : String := "Auto-cleanup performed to maintain performance"

/-- The warning string pushed on admission denial: the enum value, the text
"limit reached", and the per-type limit in parentheses. -/
def limitReachedMsg (t : ObjectType) : String :=
  t.toStr ++ " limit reached (" ++ toString (typeLimitOf t) ++ " max)"

/-- `addObject` from `useSimulation` (`src/hooks/useSimulation.ts:233-341`).

Nondeterministic inputs are explicit parameters: `newId` (the generated
`` `${type}-${Date.now()}-${random}` `` id), `pos` (the validated random
spawn position) and `ts` (`Date.now()`).

Guards that cannot fail on well-typed input are not failure branches here:
the `Object.values(ObjectType).includes(type)` check always passes because
`type` is an enum member, and the `debugLogger.validateObject` /
`validatePosition` checks always pass because every modelled object has all
required fields and a finite 3-component position.

When the creation proceeds and `objects.length >= CLEANUP_THRESHOLD`, the
auto-cleanup block runs first: `suggestObjectsForRemoval(objects, 3)` sorts
the state array in place and returns the 3 oldest ids, and the subsequent
`setObjects(prev => prev.filter(...))` therefore filters the *sorted*
array.  The new object is then appended.

Returns `(returned id or null, state after the call)`. -/
def addObject (st : SimState) (type : ObjectType) (customProps : SpawnProps)
    (newId : String) (pos : ℚ × ℚ × ℚ) (ts : ℕ) : Option String × SimState :=
  if !(canAddObject st.objects type) then
    (none,
      { st with
        performanceWarnings :=
          (st.performanceWarnings.filter fun w => !(strIncludes w limitReachedTag))
            ++ [limitReachedMsg type] })
  else
    let st1 :=
      if CLEANUP_THRESHOLD ≤ st.objects.length then
        let r := suggestObjectsForRemoval st.objects 3
        { st with
          objects := r.2.filter fun o => !(r.1.contains o.id),
          performanceWarnings :=
            (st.performanceWarnings.filter fun w => !(strIncludes w autoCleanupTag))
              ++ [autoCleanupMsg] }
      else st
    let baseProps := spreadProps { mass := some 1 } customProps
    let newObject : SpawnedObject :=
      { id := newId
        type := type
        position := pos
        timestamp := ts
        props :=
          match type with
          | .ball => spreadProps { radius := some (1/2), color := some "orange" } baseProps
          | .box => spreadProps { size := some (1, 1, 1), color := some "blue" } baseProps
          | .glb => baseProps }
    (some newObject.id, { st1 with objects := st1.objects ++ [newObject] })

/-- `removeObject` (`src/hooks/useSimulation.ts:343-345`). -/
def removeObject (st : SimState) (id : String) : SimState :=
  { st with objects := st.objects.filter fun o => !(o.id = id : Bool) }

/-- `removeAllObjects` (`src/hooks/useSimulation.ts:347-365`): pauses the
simulation, empties the object list, clears the performance warnings, runs
`optimizer.performCleanup()`, and bumps `resetKey`.  The `setTimeout` that
re-enables `isRunning` 100 ms later is asynchronous and outside the
synchronous state transition modelled here. -/
def removeAllObjects (st : SimState) (opt : OptimizerState) :
    SimState × OptimizerState :=
  ({ st with
      isRunning := false
      objects := []
      performanceWarnings := []
      resetKey := st.resetKey + 1 },
    performCleanup opt)

/-- One user-driven store operation (admit / remove / reset), with the
nondeterministic inputs of `addObject` carried in the `add` constructor. -/
inductive SimOp where
  | add (type : ObjectType) (customProps : SpawnProps) (newId : String)
      (pos : ℚ × ℚ × ℚ) (ts : ℕ)
  | remove (id : String)
  | reset

/-- Apply one operation to the hook state and the optimizer state. -/
def stepOp (s : SimState × OptimizerState) : SimOp → SimState × OptimizerState
  | .add type customProps newId pos ts =>
      ((addObject s.1 type customProps newId pos ts).2, s.2)
  | .remove id => (removeObject s.1 id, s.2)
  | .reset => removeAllObjects s.1 s.2

/-- Run a sequence of operations from the initial (empty) hook state. -/
def runOps (ops : List SimOp) : SimState × OptimizerState :=
  ops.foldl stepOp ({}, {})

/-- The population ceilings of the spec: total count at most `MAX_OBJECTS`,
and each category's count at most its ceiling. -/
def Bounded (objs : List SpawnedObject) : Prop :=
  objs.length ≤ MAX_OBJECTS ∧
    countType objs .ball ≤ MAX_BALLS ∧
    countType objs .box ≤ MAX_BOXES ∧
    countType objs .glb ≤ MAX_GLB_MODELS

instance (objs : List SpawnedObject) : Decidable (Bounded objs) := by
  unfold Bounded
  infer_instance

/-! GLB collision utilities (`src/utils/performanceOptimization.ts`, the
`glbPhysicsUtils` section, lines 389-555 of the concatenated file).

A THREE.js mesh hierarchy is modelled as the list of its mesh nodes in
traversal order.  Each node carries the identity of its geometry (used by
`extractVerticesFromGLB` to skip instanced geometry) and the world-space
coordinates of its vertices — the result of `fromBufferAttribute` followed
by `applyMatrix4(matrixWorld)` in the source; a node whose geometry has no
`position` attribute contributes an empty point list. -/

/-- One mesh node of a GLB scene. -/
structure GLBMesh where
  geometryId : ℕ
  points : List (ℚ × ℚ × ℚ)
deriving DecidableEq, Repr

/-- `extractVerticesFromGLB` (`performanceOptimization.ts:404-437`):
traverses the hierarchy, processes each geometry at most once
(`processedGeometries`), and appends every world-space vertex to a flat
`[x, y, z, ...]` list. -/
def extractVerticesFromGLB (scene : List GLBMesh) : List ℚ :=
  (scene.foldl
    (fun acc mesh =>
      if acc.2.contains mesh.geometryId then acc
      else
        (acc.1 ++ mesh.points.flatMap fun p => [p.1, p.2.1, p.2.2],
          mesh.geometryId :: acc.2))
    ([], [])).1

/-- `new THREE.Box3().setFromObject(scene)` followed by `box.getSize(...)`:
the size of the world-space axis-aligned bounding box of all vertices of
the hierarchy, and `(0, 0, 0)` for an empty hierarchy (an empty `Box3`'s
`getSize` is the zero vector). -/
def boxSize (pts : List (ℚ × ℚ × ℚ)) : ℚ × ℚ × ℚ :=
  match pts with
  | [] => (0, 0, 0)
  | p :: rest =>
    let mins := rest.foldl (fun m q => (min m.1 q.1, min m.2.1 q.2.1, min m.2.2 q.2.2)) p
    let maxs := rest.foldl (fun m q => (max m.1 q.1, max m.2.1 q.2.1, max m.2.2 q.2.2)) p
    (maxs.1 - mins.1, maxs.2.1 - mins.2.1, maxs.2.2 - mins.2.2)

/-- `calculateGLBDimensions` (`performanceOptimization.ts:442-455`): the
bounding-box size, scaled per axis and clamped below by `0.1`. -/
def calculateGLBDimensions (scene : List GLBMesh) (scale : ℚ × ℚ × ℚ) :
    ℚ × ℚ × ℚ :=
  let size := boxSize (scene.flatMap fun m => m.points)
  (max (size.1 * scale.1) (1/10),
    max (size.2.1 * scale.2.1) (1/10),
    max (size.2.2 * scale.2.2) (1/10))

/-- `simplifyVertices` (`performanceOptimization.ts:461-477`).

The guard `vertices.length / 3 <= maxVertices` (exact JS float division)
is `vertices.length ≤ 3 * maxVertices` over the integers, and
`Math.ceil((vertices.length / 3) / maxVertices)` is the integer ceiling of
`length / (3 * maxVertices)`.  The `for (i = 0; i < length; i += step * 3)`
loop visits `i = 3 * step * k` for every `k` with `3 * step * k < length`
and pushes the triple at `i` when `i + 2 < length`.  Faithful for
`maxVertices ≥ 1` (every call in the repository passes 50 or the
default 100). -/
def simplifyVertices (vertices : List ℚ) (maxVertices : ℕ) : List ℚ :=
  if vertices.length ≤ 3 * maxVertices then
    vertices
  else
    let step := (vertices.length + (3 * maxVertices - 1)) / (3 * maxVertices)
    (List.range ((vertices.length + (3 * step - 1)) / (3 * step))).flatMap
      fun k =>
        let i := 3 * step * k
        if i + 2 < vertices.length then (vertices.drop i).take 3 else []

/-- A JS `number` as seen by `validateCollisionShape`'s `isFinite` / `> 0`
tests: a finite value, an infinity, or NaN. -/
inductive JsNum where
  | finite (q : ℚ)
  | posInf
  | negInf
  | nan
deriving DecidableEq, Repr

/-- JS `isFinite`. -/
def jsIsFinite : JsNum → Bool
  | .finite _ => true
  | _ => false

/-- JS `d > 0` (false on NaN). -/
def jsGtZero : JsNum → Bool
  | .finite q => decide (0 < q)
  | .posInf => true
  | .negInf => false
  | .nan => false

/-- `n` is a finite, strictly positive number. -/
def IsFinitePos (n : JsNum) : Prop :=
  ∃ q : ℚ, n = .finite q ∧ 0 < q

/-- Embed exact model dimensions into `JsNum` (all values the deriver
computes are finite). -/
def jsDims (d : ℚ × ℚ × ℚ) : JsNum × JsNum × JsNum :=
  (.finite d.1, .finite d.2.1, .finite d.2.2)

/-- `CollisionShapeData` (`performanceOptimization.ts:395-399`).  The
optional `vertices` (a `Float32Array`, of which `validateCollisionShape`
only ever reads the length) keeps the exact values; the optional
`dimensions` keep the full JS-number range because `validate` tests them
with `isFinite`. -/
structure CollisionShapeData where
  shapeType : CollisionType
  vertices : Option (List ℚ) := none
  dimensions : Option (JsNum × JsNum × JsNum) := none
deriving DecidableEq, Repr

/-- `validateCollisionShape` (`performanceOptimization.ts:482-495`): a box
needs its three dimensions present, `> 0` and finite; a convex shape needs
its vertices present with flat length at least 12 (4 points) and divisible
by 3.  The trailing `return false` of the source is unreachable because
`shapeType` has exactly the two values matched here. -/
def validateCollisionShape (shapeData : CollisionShapeData) : Bool :=
  match shapeData.shapeType with
  | .box =>
    match shapeData.dimensions with
    | some d =>
        (jsGtZero d.1 && jsIsFinite d.1) && (jsGtZero d.2.1 && jsIsFinite d.2.1)
          && (jsGtZero d.2.2 && jsIsFinite d.2.2)
    | none => false
  | .convex =>
    match shapeData.vertices with
    | some vs => decide (12 ≤ vs.length) && decide (vs.length % 3 = 0)
    | none => false

/-- `createCollisionShapeFromGLB` (`performanceOptimization.ts:500-535`).
The `'convex'` branch with no extracted vertices performs the recursive
call `createCollisionShapeFromGLB(scene, 'box', scale)`, whose result is
written out directly here (the `'box'` branch below).  The surrounding
`try/catch` never fires in the model: every operation involved is total. -/
def createCollisionShapeFromGLB (scene : List GLBMesh)
    (collisionType : CollisionType) (scale : ℚ × ℚ × ℚ) :
    Option CollisionShapeData :=
  match collisionType with
  | .box =>
      some { shapeType := .box
             dimensions := some (jsDims (calculateGLBDimensions scene scale)) }
  | .convex =>
      let vertices := extractVerticesFromGLB scene
      if vertices.length = 0 then
        some { shapeType := .box
               dimensions := some (jsDims (calculateGLBDimensions scene scale)) }
      else
        some { shapeType := .convex
               vertices := some (simplifyVertices vertices 50) }

/-- Group a flat `[x, y, z, ...]` list into `(x, y, z)` points (used only
to state the spec's reading of a convex descriptor; a trailing fragment of
fewer than 3 numbers is dropped). -/
def toTriples : List ℚ → List (ℚ × ℚ × ℚ)
  | x :: y :: z :: rest => (x, y, z) :: toTriples rest
  | _ => []

/-- Componentwise difference of 3-vectors. -/
def sub3 (u v : ℚ × ℚ × ℚ) : ℚ × ℚ × ℚ :=
  (u.1 - v.1, u.2.1 - v.2.1, u.2.2 - v.2.2)

/-- Cross product of 3-vectors. -/
def cross3 (u v : ℚ × ℚ × ℚ) : ℚ × ℚ × ℚ :=
  (u.2.1 * v.2.2 - u.2.2 * v.2.1,
    u.2.2 * v.1 - u.1 * v.2.2,
    u.1 * v.2.1 - u.2.1 * v.1)

/-- All points of the list lie on one common line (every triple of points
is collinear).  This is the degenerate situation the spec's ConvexApprox
validity clause excludes. -/
def AllCollinear (pts : List (ℚ × ℚ × ℚ)) : Prop :=
  ∀ p ∈ pts, ∀ q ∈ pts, ∀ r ∈ pts, cross3 (sub3 q p) (sub3 r p) = (0, 0, 0)

instance (pts : List (ℚ × ℚ × ℚ)) : Decidable (AllCollinear pts) := by
  unfold AllCollinear
  infer_instance

/-! Theorems. -/

/-- `canAddObject` admits exactly when both the global ceiling and the
category ceiling leave headroom. -/
theorem canAddObject_eq_true_iff (objs : List SpawnedObject) (t : ObjectType) :
    canAddObject objs t = true ↔
      objs.length < MAX_OBJECTS ∧ countType objs t < typeLimitOf t := by
  unfold canAddObject
  split
  · rename_i hlen
    simp only [Bool.false_eq_true, false_iff]
    omega
  · rename_i hlen
    cases t <;> simp [typeLimitOf] <;> omega

/-- C3: for every entity list and category, `canAddObject` returns false if
and only if the list already holds `MAX_OBJECTS` (50) entities or the
category already holds its own ceiling (ball 25, box 25, glb 10); in
particular the global ceiling dominates a category that is still below its
own ceiling. -/
theorem canAddObject_false_iff (objs : List SpawnedObject) (t : ObjectType) :
    canAddObject objs t = false ↔
      MAX_OBJECTS ≤ objs.length ∨ typeLimitOf t ≤ countType objs t := by
  have h := canAddObject_eq_true_iff objs t
  cases hb : canAddObject objs t <;> rw [hb] at h <;> simp at h ⊢ <;> omega

/-- C2: when admission is denied (`canAddObject` is false), `addObject`
returns null and the entity list is exactly unchanged — no entity is
created and no partial insert occurs (only the performance-warning list is
touched). -/
theorem addObject_denied_no_change (st : SimState) (t : ObjectType)
    (custom : SpawnProps) (newId : String) (pos : ℚ × ℚ × ℚ) (ts : ℕ)
    (h : canAddObject st.objects t = false) :
    (addObject st t custom newId pos ts).1 = none ∧
      (addObject st t custom newId pos ts).2.objects = st.objects := by
  simp [addObject, h]

def wBallId : String := "ball-w"

def wNewId : String := "ball-new"

/-- A concrete ball entity for witnesses. -/
def ballObjW : SpawnedObject :=
  { id := wBallId, type := .ball, position := (0, 0, 0), timestamp := 0 }

/-- A store already holding 25 balls: ball admission is denied. -/
def deniedStateW : SimState := { objects := List.replicate 25 ballObjW }

/-- Witness for C2 at a concrete denied state (25 balls, adding a ball). -/
theorem addObject_denied_no_change_witness :
    (addObject deniedStateW .ball {} wNewId (0, 0, 0) 7).1 = none ∧
      (addObject deniedStateW .ball {} wNewId (0, 0, 0) 7).2.objects =
        deniedStateW.objects :=
  addObject_denied_no_change deniedStateW .ball {} wNewId (0, 0, 0) 7 (by decide)

def idA : String := "a"

def idB : String := "b"

/-- Entity with the larger timestamp, listed first. -/
def oldObjA : SpawnedObject :=
  { id := idA, type := .ball, position := (0, 0, 0), timestamp := 2 }

/-- Entity with the smaller timestamp, listed second. -/
def oldObjB : SpawnedObject :=
  { id := idB, type := .ball, position := (0, 0, 0), timestamp := 1 }

/-- C4 (code bug evidence): `suggestObjectsForRemoval` mutates its input —
`objects.sort(...)` sorts the caller's array in place, so after the call on
`[oldObjA, oldObjB]` (timestamps 2, 1) the input array holds `[oldObjB,
oldObjA]`, not its original contents. -/
theorem suggestObjectsForRemoval_mutates_input :
    (suggestObjectsForRemoval [oldObjA, oldObjB] 5).2 = [oldObjB, oldObjA] ∧
      (suggestObjectsForRemoval [oldObjA, oldObjB] 5).2 ≠ [oldObjA, oldObjB] := by
  constructor
  · decide
  · decide

/-- A store holding 10 entities, for the C5 counterexample. -/
def resetStateW : SimState := { objects := List.replicate 10 ballObjW }

/-- An optimizer cache holding 4 entries (2 materials, 2 geometries). -/
def cacheW : OptimizerState :=
  { materials := [("mat-red", 0), ("mat-blue", 1)]
    geometries := [("geo-box", 2), ("geo-sphere", 3)] }

/-- C5 counterexample: `removeAllObjects` on a store with 10 entities and a
resource cache with 4 entries empties the store, but the cache stats are
not all zero — `performCleanup` only runs registered callbacks and never
disposes the material/geometry caches. -/
theorem removeAllObjects_keeps_cache_entries :
    (removeAllObjects resetStateW cacheW).1.objects.length = 0 ∧
      ¬((getCacheStats (removeAllObjects resetStateW cacheW).2).materials = 0 ∧
        (getCacheStats (removeAllObjects resetStateW cacheW).2).geometries = 0) := by
  decide

/-- C5 amended: `removeAllObjects` empties the store (size 0), but the
resource cache is left as it was — `stats()` after the call equals
`stats()` before it; cached resources are disposed only by an explicit
`disposeAll`, which the reset path never invokes. -/
theorem removeAllObjects_store_empty_cache_unchanged (st : SimState)
    (opt : OptimizerState) :
    (removeAllObjects st opt).1.objects = [] ∧
      getCacheStats (removeAllObjects st opt).2 = getCacheStats opt := by
  exact ⟨rfl, rfl⟩

/-- C6: on a mesh hierarchy whose extracted point cloud is empty,
`createCollisionShapeFromGLB` with the convex kind falls back to the box
descriptor: the result is not `null` and is a box-kind descriptor (with the
clamped bounding dimensions and no vertex array), never a convex descriptor
with zero points. -/
theorem createCollisionShapeFromGLB_empty_fallback (scene : List GLBMesh)
    (scale : ℚ × ℚ × ℚ) (h : extractVerticesFromGLB scene = []) :
    createCollisionShapeFromGLB scene .convex scale =
      some { shapeType := .box
             vertices := none
             dimensions := some (jsDims (calculateGLBDimensions scene scale)) } := by
  simp [createCollisionShapeFromGLB, h]

/-- Witness for C6 at the empty mesh hierarchy with unit scale. -/
theorem createCollisionShapeFromGLB_empty_fallback_witness :
    createCollisionShapeFromGLB [] .convex (1, 1, 1) =
      some { shapeType := .box
             vertices := none
             dimensions := some (jsDims (calculateGLBDimensions [] (1, 1, 1))) } :=
  createCollisionShapeFromGLB_empty_fallback [] (1, 1, 1) rfl

/-- The box-dimension test `d > 0 && isFinite(d)` accepts exactly the
finite strictly positive numbers. -/
theorem js_finite_pos_iff (n : JsNum) :
    (jsGtZero n && jsIsFinite n) = true ↔ IsFinitePos n := by
  cases n <;> simp [jsGtZero, jsIsFinite, IsFinitePos]

/-- C7 amended: `validateCollisionShape` returns true for a box descriptor
iff its three dimensions are present, finite and positive, and for a
convex descriptor iff its flat vertex array is present with length at
least 12 (at least 4 points) and divisible by 3.  No non-collinearity
condition is checked (see the counterexample). -/
theorem validateCollisionShape_iff (s : CollisionShapeData) :
    validateCollisionShape s = true ↔
      ((s.shapeType = .box ∧ ∃ d, s.dimensions = some d ∧
          IsFinitePos d.1 ∧ IsFinitePos d.2.1 ∧ IsFinitePos d.2.2) ∨
        (s.shapeType = .convex ∧ ∃ vs, s.vertices = some vs ∧
          4 ≤ vs.length / 3 ∧ vs.length % 3 = 0)) := by
  obtain ⟨stype, verts, dims⟩ := s
  cases stype
  · cases dims
    · simp [validateCollisionShape]
    · simp [validateCollisionShape, ← js_finite_pos_iff]
      tauto
  · cases verts
    · simp [validateCollisionShape]
    · simp [validateCollisionShape]
      omega

/-- Flat list of 4 collinear points on the x-axis. -/
def collinearVerts : List ℚ := [0, 0, 0, 1, 0, 0, 2, 0, 0, 3, 0, 0]

/-- A convex descriptor whose 4 points are collinear. -/
def collinearShape : CollisionShapeData :=
  { shapeType := .convex, vertices := some collinearVerts }

/-- A list of points that all lie on the x-axis is collinear. -/
theorem xaxis_all_collinear (pts : List (ℚ × ℚ × ℚ))
    (h : ∀ p ∈ pts, p.2.1 = 0 ∧ p.2.2 = 0) : AllCollinear pts := by
  intro p hp q hq r hr
  obtain ⟨hp1, hp2⟩ := h p hp
  obtain ⟨hq1, hq2⟩ := h q hq
  obtain ⟨hr1, hr2⟩ := h r hr
  simp [cross3, sub3, Prod.ext_iff, hp1, hp2, hq1, hq2, hr1, hr2]

/-- C7 counterexample: the code accepts a convex descriptor whose 4 points
are all collinear — `validateCollisionShape` returns true although the
claim requires non-collinear points, so the claimed equivalence fails at
this input. -/
theorem validateCollisionShape_accepts_collinear :
    validateCollisionShape collinearShape = true ∧
      4 ≤ (toTriples collinearVerts).length ∧
      AllCollinear (toTriples collinearVerts) := by
  refine ⟨by decide, by decide, xaxis_all_collinear _ ?_⟩
  intro p hp
  simp [toTriples, collinearVerts] at hp
  rcases hp with h | h | h | h <;> simp [h]

/-- A flat-map over `List.range N` whose pieces have length at most 3 and
vanish from index `m` on has length at most `3 * m`. -/
theorem flatMap_range_length_le (g : ℕ → List ℚ) (m N : ℕ)
    (h3 : ∀ k, (g k).length ≤ 3)
    (h0 : ∀ k, m ≤ k → g k = []) :
    ((List.range N).flatMap g).length ≤ 3 * m := by
  have key : ∀ n : ℕ, ((List.range n).flatMap g).length ≤ 3 * min n m := by
    intro n
    induction n with
    | zero => simp
    | succ n ih =>
      rw [List.range_succ, List.flatMap_append, List.length_append]
      have hsing : (([n] : List ℕ).flatMap g).length = (g n).length := by simp
      rw [hsing]
      rcases Nat.lt_or_ge n m with h | h
      · have := h3 n
        omega
      · rw [h0 n h]
        simp only [List.length_nil]
        omega
  calc ((List.range N).flatMap g).length ≤ 3 * min N m := key N
    _ ≤ 3 * m := by omega

/-- A flat-map all of whose pieces have length divisible by 3 has length
divisible by 3. -/
theorem flatMap_length_mod3 (g : ℕ → List ℚ) (l : List ℕ)
    (hg : ∀ k, (g k).length % 3 = 0) :
    (l.flatMap g).length % 3 = 0 := by
  induction l with
  | nil => simp
  | cons a l ih =>
    rw [List.flatMap_cons, List.length_append]
    have := hg a
    omega

/-- An input already under the cap is returned unchanged (the
`vertices.length / 3 <= maxVertices` guard). -/
theorem simplifyVertices_of_le (vs : List ℚ) (m : ℕ) (h : vs.length ≤ 3 * m) :
    simplifyVertices vs m = vs := by
  rw [simplifyVertices, if_pos h]

/-- The output of `simplifyVertices` holds at most `maxVertices` points:
its flat length is at most `3 * maxVertices` (for `maxVertices ≥ 1`). -/
theorem simplifyVertices_length_le (vs : List ℚ) (m : ℕ) (hm : 1 ≤ m) :
    (simplifyVertices vs m).length ≤ 3 * m := by
  rw [simplifyVertices]
  split
  · rename_i h
    exact h
  · rename_i hlen
    simp only []
    apply flatMap_range_length_le
    · intro k
      split
      · rename_i hc
        rw [List.length_take]
        omega
      · simp
    · intro k hk
      have hb : 0 < 3 * m := by omega
      have h1 := Nat.div_add_mod (vs.length + (3 * m - 1)) (3 * m)
      have h2 := Nat.mod_lt (vs.length + (3 * m - 1)) hb
      have hstep : vs.length ≤ 3 * m * ((vs.length + (3 * m - 1)) / (3 * m)) := by
        generalize hq : 3 * m * ((vs.length + (3 * m - 1)) / (3 * m)) = P at h1
        omega
      have hmk : 3 * ((vs.length + (3 * m - 1)) / (3 * m)) * m ≤
          3 * ((vs.length + (3 * m - 1)) / (3 * m)) * k :=
        Nat.mul_le_mul_left _ hk
      have hcomm : 3 * ((vs.length + (3 * m - 1)) / (3 * m)) * m =
          3 * m * ((vs.length + (3 * m - 1)) / (3 * m)) := by ring
      have hle : vs.length ≤ 3 * ((vs.length + (3 * m - 1)) / (3 * m)) * k := by
        rw [← hcomm] at hstep
        exact le_trans hstep hmk
      rw [if_neg]
      omega

/-- The output of `simplifyVertices` has flat length divisible by 3
whenever the input has (the decimation branch always emits whole
triples). -/
theorem simplifyVertices_length_mod3 (vs : List ℚ) (m : ℕ)
    (h3 : vs.length % 3 = 0) :
    (simplifyVertices vs m).length % 3 = 0 := by
  rw [simplifyVertices]
  split
  · exact h3
  · simp only []
    apply flatMap_length_mod3
    intro k
    split
    · rename_i hc
      rw [List.length_take, List.length_drop]
      omega
    · simp

/-- C8: `simplifyVertices` is idempotent once under the cap —
`simplify(simplify(pts, 50), 50) = simplify(pts, 50)` for every flat point
list, and an input already holding at most 50 points (flat length at most
150) is returned unchanged. -/
theorem simplifyVertices_idempotent (pts : List ℚ) :
    simplifyVertices (simplifyVertices pts 50) 50 = simplifyVertices pts 50 ∧
      (pts.length ≤ 3 * 50 → simplifyVertices pts 50 = pts) := by
  constructor
  · exact simplifyVertices_of_le _ 50 (simplifyVertices_length_le pts 50 (by omega))
  · intro h
    exact simplifyVertices_of_le _ 50 h

/-- Witness for C8 at a concrete 1-point input. -/
theorem simplifyVertices_idempotent_witness :
    simplifyVertices [(1 : ℚ), 2, 3] 50 = [(1 : ℚ), 2, 3] :=
  (simplifyVertices_idempotent [(1 : ℚ), 2, 3]).2 (by decide)

/-- C10 counterexample: on the 4-element flat list `[0, 0, 0, 0]` with
`maxVertices = 2`, the guard returns the input unchanged, so the output
flat length is 4 — the cap holds but divisibility by 3 fails, refuting the
claim for inputs that are not whole triples. -/
theorem simplifyVertices_output_not_mod3 :
    ¬(((simplifyVertices [(0 : ℚ), 0, 0, 0] 2).length ≤ 3 * 2) ∧
      ((simplifyVertices [(0 : ℚ), 0, 0, 0] 2).length % 3 = 0)) := by
  decide

/-- C10 amended: for every flat vertex list and `maxVertices ≥ 1`, the
output holds at most `maxVertices` points (flat length at most
`3 * maxVertices`), and the output flat length is divisible by 3 whenever
the input flat length is (a well-formed point list). -/
theorem simplifyVertices_cap_and_mod3 (vs : List ℚ) (m : ℕ) (hm : 1 ≤ m) :
    (simplifyVertices vs m).length ≤ 3 * m ∧
      (vs.length % 3 = 0 → (simplifyVertices vs m).length % 3 = 0) :=
  ⟨simplifyVertices_length_le vs m hm, fun h3 => simplifyVertices_length_mod3 vs m h3⟩

/-- Witness for C10 (amended) at a concrete 2-point input with
`maxVertices = 1`, which exercises the decimation branch. -/
theorem simplifyVertices_cap_and_mod3_witness :
    (simplifyVertices (List.replicate 6 (0 : ℚ)) 1).length ≤ 3 * 1 ∧
      (simplifyVertices (List.replicate 6 (0 : ℚ)) 1).length % 3 = 0 :=
  ⟨(simplifyVertices_cap_and_mod3 (List.replicate 6 (0 : ℚ)) 1 (by decide)).1,
    (simplifyVertices_cap_and_mod3 (List.replicate 6 (0 : ℚ)) 1 (by decide)).2 (by decide)⟩

/-- A mesh whose bounding box is 1/20 on every axis — small enough for the
0.1 dimension clamp to engage. -/
def smallMeshW : GLBMesh :=
  { geometryId := 0, points := [(0, 0, 0), (1/20, 1/20, 1/20)] }

/-- One-mesh scene for the C9 counterexample. -/
def smallSceneW : List GLBMesh := [smallMeshW]

/-- C9 counterexample: on a mesh of bounding size 1/20, the dimensions at
scale `(2, 2, 2)` are `(1/10, 1/10, 1/10)` (still clamped), not double the
dimensions at scale `(1, 1, 1)` (which are also clamped to `1/10`): the
0.1 clamp floor breaks the claimed scale round-trip. -/
theorem calculateGLBDimensions_clamp_breaks_doubling :
    ¬(calculateGLBDimensions smallSceneW (2, 2, 2) =
      (2 * (calculateGLBDimensions smallSceneW (1, 1, 1)).1,
        2 * (calculateGLBDimensions smallSceneW (1, 1, 1)).2.1,
        2 * (calculateGLBDimensions smallSceneW (1, 1, 1)).2.2)) := by
  intro h
  have h1 := congrArg Prod.fst h
  norm_num [calculateGLBDimensions, boxSize, smallSceneW, smallMeshW, max_def] at h1

/-- C9 amended: doubling every scale component doubles every output
dimension of `calculateGLBDimensions`, provided each scaled bounding size
already meets the 0.1 clamp floor (so the clamp is inactive); without that
proviso the clamp absorbs the doubling (see the counterexample). -/
theorem calculateGLBDimensions_double_scale (scene : List GLBMesh)
    (scale : ℚ × ℚ × ℚ)
    (h1 : 1/10 ≤ (boxSize (scene.flatMap fun m => m.points)).1 * scale.1)
    (h2 : 1/10 ≤ (boxSize (scene.flatMap fun m => m.points)).2.1 * scale.2.1)
    (h3 : 1/10 ≤ (boxSize (scene.flatMap fun m => m.points)).2.2 * scale.2.2) :
    calculateGLBDimensions scene (2 * scale.1, 2 * scale.2.1, 2 * scale.2.2) =
      (2 * (calculateGLBDimensions scene scale).1,
        2 * (calculateGLBDimensions scene scale).2.1,
        2 * (calculateGLBDimensions scene scale).2.2) := by
  have key : ∀ a b : ℚ, 1/10 ≤ a * b →
      max (a * (2 * b)) (1/10) = 2 * max (a * b) (1/10) := by
    intro a b hab
    have hx : a * (2 * b) = 2 * (a * b) := by ring
    rw [hx, max_eq_left hab, max_eq_left (by linarith)]
  unfold calculateGLBDimensions
  simp only [Prod.mk.injEq]
  exact ⟨key _ _ h1, key _ _ h2, key _ _ h3⟩

/-- A unit-cube mesh (axis-aligned bounding corners at the origin and
`(1, 1, 1)`). -/
def unitCubeMeshW : GLBMesh :=
  { geometryId := 0, points := [(0, 0, 0), (1, 1, 1)] }

/-- One-mesh unit-cube scene for the C9 witness. -/
def unitCubeSceneW : List GLBMesh := [unitCubeMeshW]

/-- Witness for C9 (amended) on the unit cube at scale `(1, 1, 1)`. -/
theorem calculateGLBDimensions_double_scale_witness :
    calculateGLBDimensions unitCubeSceneW (2 * 1, 2 * 1, 2 * 1) =
      (2 * (calculateGLBDimensions unitCubeSceneW (1, 1, 1)).1,
        2 * (calculateGLBDimensions unitCubeSceneW (1, 1, 1)).2.1,
        2 * (calculateGLBDimensions unitCubeSceneW (1, 1, 1)).2.2) :=
  calculateGLBDimensions_double_scale unitCubeSceneW (1, 1, 1)
    (by norm_num [boxSize, unitCubeSceneW, unitCubeMeshW, min_def, max_def])
    (by norm_num [boxSize, unitCubeSceneW, unitCubeMeshW, min_def, max_def])
    (by norm_num [boxSize, unitCubeSceneW, unitCubeMeshW, min_def, max_def])

/-! Population-ceiling invariant (C1). -/

/-- Appending one entity changes exactly its own category count. -/
theorem countType_append_single (objs : List SpawnedObject) (o : SpawnedObject)
    (c : ObjectType) :
    countType (objs ++ [o]) c = countType objs c + (if o.type = c then 1 else 0) := by
  by_cases h : o.type = c
  · simp [countType, List.filter_append, List.filter_singleton, h]
  · simp [countType, List.filter_append, List.filter_singleton, h]

/-- Category counts only shrink along sublists (e.g. after a `filter`). -/
theorem countType_sublist_le {l₁ l₂ : List SpawnedObject} (h : List.Sublist l₁ l₂)
    (c : ObjectType) : countType l₁ c ≤ countType l₂ c :=
  List.Sublist.length_le (List.Sublist.filter _ h)

/-- Category counts are invariant under permutation (e.g. after the
in-place sort). -/
theorem countType_perm_eq {l₁ l₂ : List SpawnedObject} (h : List.Perm l₁ l₂)
    (c : ObjectType) : countType l₁ c = countType l₂ c := by
  unfold countType
  exact (h.filter _).length_eq

/-- Appending a single admissible entity preserves all ceilings. -/
theorem bounded_append_admissible (objs : List SpawnedObject) (o : SpawnedObject)
    (hB : Bounded objs) (hlen : objs.length < MAX_OBJECTS)
    (hc : countType objs o.type < typeLimitOf o.type) :
    Bounded (objs ++ [o]) := by
  obtain ⟨h1, h2, h3, h4⟩ := hB
  have ha := countType_append_single objs o .ball
  have hbx := countType_append_single objs o .box
  have hg := countType_append_single objs o .glb
  have hl : (objs ++ [o]).length = objs.length + 1 := by simp
  refine ⟨?_, ?_, ?_, ?_⟩ <;>
    cases ho : o.type <;>
    rw [ho] at ha hbx hg hc <;>
    simp only [typeLimitOf] at hc <;>
    simp at ha hbx hg <;>
    omega

/-- The auto-cleanup filter of the (in-place sorted) entity list, followed
by the append of one admissible entity, preserves all ceilings. -/
theorem bounded_filtered_append (base : List SpawnedObject)
    (q : SpawnedObject → Bool) (o : SpawnedObject) (hB : Bounded base)
    (hlen : base.length < MAX_OBJECTS)
    (hc : countType base o.type < typeLimitOf o.type) :
    Bounded (((base.insertionSort tsLE).filter q) ++ [o]) := by
  have hperm : List.Perm (base.insertionSort tsLE) base :=
    List.perm_insertionSort tsLE base
  have hlenf : ((base.insertionSort tsLE).filter q).length ≤ base.length :=
    le_trans (List.length_filter_le _ _) (le_of_eq hperm.length_eq)
  have hcnt : ∀ c, countType ((base.insertionSort tsLE).filter q) c ≤ countType base c := by
    intro c
    calc countType ((base.insertionSort tsLE).filter q) c
        ≤ countType (base.insertionSort tsLE) c :=
          countType_sublist_le (List.filter_sublist _) c
      _ = countType base c := countType_perm_eq hperm c
  obtain ⟨h1, h2, h3, h4⟩ := hB
  exact bounded_append_admissible _ o
    ⟨le_trans hlenf h1, le_trans (hcnt .ball) h2, le_trans (hcnt .box) h3,
      le_trans (hcnt .glb) h4⟩
    (lt_of_le_of_lt hlenf hlen) (lt_of_le_of_lt (hcnt o.type) hc)

/-- `addObject` preserves all population ceilings, whether it denies,
admits directly, or admits after the auto-cleanup. -/
theorem addObject_preserves_bounded (st : SimState) (t : ObjectType)
    (custom : SpawnProps) (newId : String) (pos : ℚ × ℚ × ℚ) (ts : ℕ)
    (hB : Bounded st.objects) :
    Bounded (addObject st t custom newId pos ts).2.objects := by
  cases hca : canAddObject st.objects t with
  | false =>
    have hobj : (addObject st t custom newId pos ts).2.objects = st.objects := by
      simp [addObject, hca]
    rw [hobj]
    exact hB
  | true =>
    have hlt := (canAddObject_eq_true_iff st.objects t).mp hca
    rcases Nat.lt_or_ge st.objects.length CLEANUP_THRESHOLD with hclean | hclean
    · have hni : ¬ CLEANUP_THRESHOLD ≤ st.objects.length := Nat.not_le.mpr hclean
      simp only [addObject, hca, Bool.not_true, Bool.false_eq_true, if_false,
        if_neg hni]
      exact bounded_append_admissible st.objects _ hB hlt.1 hlt.2
    · simp only [addObject, hca, Bool.not_true, Bool.false_eq_true, if_false,
        if_pos hclean, suggestObjectsForRemoval]
      exact bounded_filtered_append st.objects _ _ hB hlt.1 hlt.2

/-- Every single operation preserves all population ceilings. -/
theorem stepOp_preserves_bounded (s : SimState × OptimizerState) (op : SimOp)
    (hB : Bounded s.1.objects) : Bounded (stepOp s op).1.objects := by
  cases op with
  | add t custom newId pos ts =>
    exact addObject_preserves_bounded s.1 t custom newId pos ts hB
  | remove id =>
    obtain ⟨h1, h2, h3, h4⟩ := hB
    simp only [stepOp, removeObject]
    exact ⟨le_trans (List.length_filter_le _ _) h1,
      le_trans (countType_sublist_le (List.filter_sublist _) _) h2,
      le_trans (countType_sublist_le (List.filter_sublist _) _) h3,
      le_trans (countType_sublist_le (List.filter_sublist _) _) h4⟩
  | reset =>
    show Bounded []
    decide

/-- C1: after every sequence of admit (`addObject`), remove
(`removeObject`) and reset (`removeAllObjects`) operations starting from
the empty store, the total entity count is at most `MAX_OBJECTS` (50) and
each category count is at most its ceiling (ball 25, box 25, glb 10).
Since every prefix of a sequence is itself a sequence, this bounds the
state after every intermediate operation as well. -/
theorem runOps_bounded (ops : List SimOp) : Bounded (runOps ops).1.objects := by
  have gen : ∀ (l : List SimOp) (s : SimState × OptimizerState),
      Bounded s.1.objects → Bounded (l.foldl stepOp s).1.objects := by
    intro l
    induction l with
    | nil => intro s hs; simpa using hs
    | cons op l ih => intro s hs; exact ih _ (stepOp_preserves_bounded s op hs)
  exact gen ops ({}, {}) (by decide)
